import Mathlib

/-!
Shallow embedding of src/bot.py: the ethos slash-command handler of the
ethos-discord bot.

The body of the handler (bot.py lines 24-56) is:

  twitter_handle = twitter_handle.lstrip(at-sign)         -- strips ALL leading at-signs
  await interaction.response.defer()                      -- outside the try block
  try:
      response = requests.get(url, headers)               -- may raise
      if response.status_code == 200:
          data = response.json()                          -- may raise
          embed = Embed(title, color); embed.add_field(score)
          await interaction.followup.send(embed)          -- may raise, still inside try
      else:
          await interaction.followup.send(error text)     -- may raise, still inside try
  except Exception as e:
      await interaction.followup.send(error text with e)  -- may raise, NOT caught

We embed JSON values, Python str() rendering, the lstrip normalisation, and the
handler as a pure function from the input handle, the API key and a World
(which fixes the simulated API behaviour and whether each framework call
raises) to the list of observable events plus the final outcome of the
per-invocation task.
-/

/-- JSON values as deserialised by response.json() in Python. Numbers are
modelled as integers (the only numeric value the claims exercise is 87). -/
inductive JsonValue where
  | null : JsonValue
  | bool : Bool → JsonValue
  | num : Int → JsonValue
  | str : String → JsonValue
  | arr : List JsonValue → JsonValue
  | obj : List (String × JsonValue) → JsonValue

mutual

/-- Python repr of a deserialised JSON value (used by str on containers). -/
def pyRepr : JsonValue → String
  | JsonValue.null => "None"
  | JsonValue.bool true => "True"
  | JsonValue.bool false => "False"
  | JsonValue.num n => toString n
  | JsonValue.str s => "\x27" ++ s ++ "\x27"
  | JsonValue.arr xs => "[" ++ pyReprElems xs ++ "]"
  | JsonValue.obj fs => "\x7b" ++ pyReprFields fs ++ "\x7d"

/-- Comma-separated reprs of the elements of a JSON array. -/
def pyReprElems : List JsonValue → String
  | [] => ""
  | [x] => pyRepr x
  | x :: y :: xs => pyRepr x ++ ", " ++ pyReprElems (y :: xs)

/-- Comma-separated key/value reprs of the entries of a JSON object. -/
def pyReprFields : List (String × JsonValue) → String
  | [] => ""
  | [(k, v)] => "\x27" ++ k ++ "\x27: " ++ pyRepr v
  | (k, v) :: f :: fs => "\x27" ++ k ++ "\x27: " ++ pyRepr v ++ ", " ++ pyReprFields (f :: fs)

end

/-- Python str() of a deserialised JSON value: strings print bare, everything
else prints as its repr (None, True, 87, ...). -/
def pyStr : JsonValue → String
  | JsonValue.str s => s
  | v => pyRepr v

/-- Python dict.get(key, default) on the deserialised JSON object. -/
def pyDictGet (fs : List (String × JsonValue)) (key : String) (dflt : JsonValue) : JsonValue :=
  match fs.lookup key with
  | some v => v
  | none => dflt

/-- twitter_handle.lstrip with the at-sign character set (bot.py line 26):
removes ALL leading at-sign characters. -/
def pyLstripAt (s : String) : String :=
  String.mk (s.data.dropWhile (· == '@'))

/-- The string begins with an at-sign character (spec-side helper used to state
the normalisation claims). -/
def beginsWithAt (s : String) : Prop := s.data.head? = some '@'

instance (s : String) : Decidable (beginsWithAt s) :=
  inferInstanceAs (Decidable (s.data.head? = some '@'))

/-- The fixed accent colour discord.Color.blue() (0x3498db). -/
def colorBlue : Nat := 0x3498db

/-- One field of a Discord embed (embed.add_field with name and value). -/
structure EmbedField where
  name : String
  value : String
deriving DecidableEq, Repr

/-- A Discord embed as built in the 200 branch of the handler. -/
structure Embed where
  title : String
  color : Nat
  fields : List EmbedField
deriving DecidableEq, Repr

/-- A message handed to interaction.followup.send: either an embed (success
path) or plain text (both error paths). -/
inductive Message where
  | embed : Embed → Message
  | text : String → Message
deriving DecidableEq, Repr

/-- Observable steps of one invocation, in program order. -/
inductive Event where
  | deferred : Event
  | httpGet : String → String → Event
  | send : Message → Event
deriving DecidableEq, Repr

/-- Result of requests.get: the status code, plus the outcome of a later
response.json() call (the parsed value, or the exception it raises). -/
structure HttpResponse where
  status_code : Nat
  body : Except String JsonValue

/-- The environment of one invocation: the simulated API behaviour (Except.error
e means requests.get raises an exception whose str rendering is e), plus, for
each of the framework calls the handler makes, whether that call raises and
with what message. -/
structure World where
  api : Except String HttpResponse
  deferRaises : Option String
  sendSuccessRaises : Option String
  sendErrorRaises : Option String
  sendExceptRaises : Option String

/-- The request URL (bot.py line 36). -/
def profileUrl (handle : String) : String :=
  "https://api.ethos.com/v1/profile/" ++ handle

/-- The Authorization header value (bot.py line 34). -/
def authHeader (apiKey : String) : String :=
  "Bearer " ++ apiKey

/-- The embed built in the 200 branch (bot.py lines 43-48). -/
def successEmbed (handle : String) (data : List (String × JsonValue)) : Embed :=
  { title := "Ethos Profile for @" ++ handle
    color := colorBlue
    fields := [⟨"Ethos Score", pyStr (pyDictGet data "score" (JsonValue.str "N/A"))⟩] }

/-- The plain-text message of the non-200 branch (bot.py line 53). -/
def lookupErrorText (handle : String) : String :=
  "Error: Could not fetch Ethos profile for @" ++ handle

/-- The plain-text message of the except block (bot.py line 56). -/
def exceptionText (e : String) : String :=
  "An error occurred: " ++ e

/-- The message of the AttributeError Python raises when a 200 body parses to a
non-dict value and the handler then calls .get on it. -/
def attrErrorText : String :=
  "object has no attribute get"

/-- The try block (bot.py lines 31-53): the events it emits and either normal
completion or the exception the except block receives. -/
def tryBody (handle apiKey : String) (w : World) : List Event × Except String Unit :=
  let getEv := Event.httpGet (profileUrl handle) (authHeader apiKey)
  match w.api with
  | Except.error e => ([getEv], Except.error e)
  | Except.ok resp =>
    if resp.status_code = 200 then
      match resp.body with
      | Except.error e => ([getEv], Except.error e)
      | Except.ok (JsonValue.obj data) =>
        let msg := Message.embed (successEmbed handle data)
        match w.sendSuccessRaises with
        | some e => ([getEv, Event.send msg], Except.error e)
        | none => ([getEv, Event.send msg], Except.ok ())
      | Except.ok _ => ([getEv], Except.error attrErrorText)
    else
      let msg := Message.text (lookupErrorText handle)
      match w.sendErrorRaises with
      | some e => ([getEv, Event.send msg], Except.error e)
      | none => ([getEv, Event.send msg], Except.ok ())

/-- Final outcome of one invocation task: it either ran to completion or an
uncaught exception escaped the handler. -/
inductive Outcome where
  | completed : Outcome
  | uncaught : String → Outcome
deriving DecidableEq, Repr

/-- The whole ethos command handler (bot.py lines 24-56): normalise the handle,
defer (outside the try block), run the try block, and on a caught exception
send the except-block message (whose own failure is uncaught). -/
def ethos (twitter_handle apiKey : String) (w : World) : List Event × Outcome :=
  let handle := pyLstripAt twitter_handle
  match w.deferRaises with
  | some e => ([], Outcome.uncaught e)
  | none =>
    match tryBody handle apiKey w with
    | (evs, Except.ok ()) => (Event.deferred :: evs, Outcome.completed)
    | (evs, Except.error e) =>
      let msg := Message.text (exceptionText e)
      match w.sendExceptRaises with
      | some e2 => (Event.deferred :: evs ++ [Event.send msg], Outcome.uncaught e2)
      | none => (Event.deferred :: evs ++ [Event.send msg], Outcome.completed)

/-- The messages the handler hands to interaction.followup.send, in order. -/
def sentMessages (evs : List Event) : List Message :=
  evs.filterMap fun e =>
    match e with
    | Event.send m => some m
    | _ => none

/-- A well-behaved environment: the framework calls themselves do not raise. -/
def okWorld (api : Except String HttpResponse) : World :=
  { api := api
    deferRaises := none
    sendSuccessRaises := none
    sendErrorRaises := none
    sendExceptRaises := none }

/-- Two invocations of the handler with the same handle, key and simulated
behaviour; the module has no mutable state the handler reads or writes, so the
second run is the same function of the same arguments. -/
def runTwice (s key : String) (w : World) : List Message × List Message :=
  (sentMessages (ethos s key w).1, sentMessages (ethos s key w).1)

/-- After dropping the leading at-signs, the head of the remaining character
list is not an at-sign. -/
theorem dropWhile_at_head_ne (l : List Char) :
    (l.dropWhile (· == '@')).head? ≠ some '@' := by
  induction l with
  | nil => simp [List.dropWhile]
  | cons c l ih =>
    by_cases hc : c = '@'
    · subst hc
      simpa [List.dropWhile] using ih
    · have hb : (c == '@') = false := beq_eq_false_iff_ne.mpr hc
      simp [List.dropWhile, hb, hc]

/-- A list whose head is not an at-sign is unchanged by dropping leading
at-signs. -/
theorem dropWhile_at_self (l : List Char) (h : l.head? ≠ some '@') :
    l.dropWhile (· == '@') = l := by
  cases l with
  | nil => rfl
  | cons c l =>
    have hc : ¬ (c = '@') := by simpa using h
    have hb : (c == '@') = false := beq_eq_false_iff_ne.mpr hc
    simp [List.dropWhile, hb]

/-- Dropping leading at-signs is idempotent. -/
theorem dropWhile_at_idem (l : List Char) :
    (l.dropWhile (· == '@')).dropWhile (· == '@') = l.dropWhile (· == '@') :=
  dropWhile_at_self _ (dropWhile_at_head_ne l)

/-- The events of the try block are the HTTP GET, optionally followed by one
send: the success embed or the lookup-failure text. -/
theorem tryBody_events (handle key : String) (w : World) :
    ((tryBody handle key w).1 = [Event.httpGet (profileUrl handle) (authHeader key)]) ∨
    (∃ data, (tryBody handle key w).1 =
        [Event.httpGet (profileUrl handle) (authHeader key),
         Event.send (Message.embed (successEmbed handle data))]) ∨
    ((tryBody handle key w).1 =
        [Event.httpGet (profileUrl handle) (authHeader key),
         Event.send (Message.text (lookupErrorText handle))]) := by
  rcases w with ⟨api, dr, ss, se, sx⟩
  cases api with
  | error e => exact Or.inl rfl
  | ok resp =>
    by_cases h200 : resp.status_code = 200
    · cases hb : resp.body with
      | error e => left; simp [tryBody, h200, hb]
      | ok v =>
        cases v with
        | obj data =>
          refine Or.inr (Or.inl ⟨data, ?_⟩)
          cases ss <;> simp [tryBody, h200, hb]
        | null => left; simp [tryBody, h200, hb]
        | bool b => left; simp [tryBody, h200, hb]
        | num n => left; simp [tryBody, h200, hb]
        | str t => left; simp [tryBody, h200, hb]
        | arr xs => left; simp [tryBody, h200, hb]
    · right; right
      cases se <;> simp [tryBody, h200]

/-- When the deferred acknowledgment succeeds, the trace of the handler is the
defer event followed by the try-block events, plus the except-block send when
the try block raised. -/
theorem ethos_events (s key : String) (w : World) (hd : w.deferRaises = none) :
    (ethos s key w).1 = Event.deferred :: (tryBody (pyLstripAt s) key w).1 ∨
    ∃ e, (ethos s key w).1 =
      Event.deferred ::
        ((tryBody (pyLstripAt s) key w).1 ++ [Event.send (Message.text (exceptionText e))]) := by
  unfold ethos
  rw [hd]
  rcases htb : tryBody (pyLstripAt s) key w with ⟨evs, r⟩
  cases r with
  | ok u =>
    cases u
    left
    simp [htb]
  | error e =>
    right
    refine ⟨e, ?_⟩
    cases hx : w.sendExceptRaises <;> simp [htb, hx]

/-- When the deferred acknowledgment raises, the handler emits nothing and the
exception escapes. -/
theorem ethos_defer_raises (s key e : String) (w : World) (hd : w.deferRaises = some e) :
    (ethos s key w).1 = [] ∧ (ethos s key w).2 = Outcome.uncaught e := by
  unfold ethos
  rw [hd]
  exact ⟨rfl, rfl⟩

/-- Claim C1 is false as stated: at input with two leading at-signs, lstrip
removes both of them, not exactly one, so the result is bob rather than the
at-bob the claim predicts. -/
theorem C1_counterexample :
    pyLstripAt "@@bob" = "bob" ∧ pyLstripAt "@@bob" ≠ "@bob" :=
  ⟨rfl, by decide⟩

/-- Claim C1 (amended): the normalization strips ALL leading at-sign characters
(an input without a leading at-sign passes through unchanged, and the result
never begins with an at-sign), and the normalized handle is what appears in
every outbound request URL and in the title of every embed the handler sends. -/
theorem C1_amended_thm (s key : String) (w : World) :
    (¬ beginsWithAt s → pyLstripAt s = s) ∧
    ¬ beginsWithAt (pyLstripAt s) ∧
    (∀ u a, Event.httpGet u a ∈ (ethos s key w).1 → u = profileUrl (pyLstripAt s)) ∧
    (∀ em, Message.embed em ∈ sentMessages (ethos s key w).1 →
      em.title = "Ethos Profile for @" ++ pyLstripAt s) := by
  refine ⟨?_, dropWhile_at_head_ne s.data, ?_, ?_⟩
  · intro h
    exact congrArg String.mk (dropWhile_at_self s.data h)
  · intro u a hu
    cases hdr : w.deferRaises with
    | some e =>
      rw [(ethos_defer_raises s key e w hdr).1] at hu
      simp at hu
    | none =>
      rcases ethos_events s key w hdr with h | ⟨e2, h⟩ <;>
        rcases tryBody_events (pyLstripAt s) key w with ht | ⟨data, ht⟩ | ht <;>
          rw [ht] at h <;> rw [h] at hu <;> simp at hu <;> exact hu.1
  · intro em hm
    cases hdr : w.deferRaises with
    | some e =>
      rw [(ethos_defer_raises s key e w hdr).1] at hm
      simp [sentMessages] at hm
    | none =>
      rcases ethos_events s key w hdr with h | ⟨e2, h⟩ <;>
        rcases tryBody_events (pyLstripAt s) key w with ht | ⟨data, ht⟩ | ht <;>
          rw [ht] at h <;> rw [h] at hm <;> simp [sentMessages] at hm <;>
            (subst hm; rfl)

/-- Witness for the amended claim C1 at concrete inputs. -/
theorem C1_amended_witness :
    pyLstripAt "bob" = "bob" ∧
    ¬ beginsWithAt (pyLstripAt "@@bob") ∧
    "https://api.ethos.com/v1/profile/bob" = profileUrl (pyLstripAt "bob") ∧
    (successEmbed "alice" []).title = "Ethos Profile for @" ++ pyLstripAt "alice" := by
  refine ⟨(C1_amended_thm "bob" "k" (okWorld (Except.error "x"))).1 (by decide),
          (C1_amended_thm "@@bob" "k" (okWorld (Except.error "x"))).2.1,
          (C1_amended_thm "bob" "k" (okWorld (Except.error "x"))).2.2.1
            "https://api.ethos.com/v1/profile/bob" "Bearer k" (by decide),
          (C1_amended_thm "alice" "k"
              (okWorld (Except.ok ⟨200, Except.ok (JsonValue.obj [])⟩))).2.2.2
            (successEmbed "alice" []) (by decide)⟩

/-- Claim C2 is false as stated: the deferred acknowledgment is issued outside
the try block, so when it raises, the exception propagates past the handler
boundary instead of being converted into a user-facing message. -/
theorem C2_counterexample :
    (ethos "alice" "k"
      { api := Except.error "network down"
        deferRaises := some "interaction expired"
        sendSuccessRaises := none
        sendErrorRaises := none
        sendExceptRaises := none }).2 = Outcome.uncaught "interaction expired" := rfl

/-- Claim C2 (amended): every error raised inside the try block (the HTTP
request, the JSON parse, and the delivery of the success or lookup-failure
reply) is caught and converted into a user-facing message, and the invocation
completes, PROVIDED the deferred acknowledgment and the delivery of the
except-block error message themselves do not raise; an error in either of
those two framework calls propagates past the handler. -/
theorem C2_amended_thm (s key : String) (w : World)
    (hd : w.deferRaises = none) (hx : w.sendExceptRaises = none) :
    (ethos s key w).2 = Outcome.completed ∧
    ∀ e, (tryBody (pyLstripAt s) key w).2 = Except.error e →
      Event.send (Message.text (exceptionText e)) ∈ (ethos s key w).1 := by
  rcases htb : tryBody (pyLstripAt s) key w with ⟨evs, r⟩
  unfold ethos
  rw [hd]
  cases r with
  | ok u =>
    cases u
    constructor
    · simp [htb]
    · intro e he
      simp at he
  | error e2 =>
    constructor
    · simp [htb, hx]
    · intro e he
      simp at he
      subst he
      simp [htb, hx]

/-- Witness for the amended claim C2: a raising API call is absorbed and
surfaced as the except-block message. -/
theorem C2_amended_witness :
    (ethos "alice" "k" (okWorld (Except.error "boom"))).2 = Outcome.completed ∧
    Event.send (Message.text (exceptionText "boom")) ∈
      (ethos "alice" "k" (okWorld (Except.error "boom"))).1 := by
  have h := C2_amended_thm "alice" "k" (okWorld (Except.error "boom")) rfl rfl
  exact ⟨h.1, h.2 "boom" rfl⟩

/-- Claim C3: when the simulated HTTP request raises an exception, the handler
sends exactly one message, a plain text one embedding the str rendering of the
exception (as a suffix of a fixed prefix), and the invocation task completes
without the exception escaping. -/
theorem C3_thm (s key e : String) (w : World)
    (hd : w.deferRaises = none) (ha : w.api = Except.error e)
    (hx : w.sendExceptRaises = none) :
    sentMessages (ethos s key w).1 = [Message.text (exceptionText e)] ∧
    (∃ p, exceptionText e = p ++ e) ∧
    (ethos s key w).2 = Outcome.completed := by
  rcases w with ⟨api, dr, ss, se, sx⟩
  dsimp at hd ha hx
  subst hd ha hx
  exact ⟨rfl, ⟨"An error occurred: ", rfl⟩, rfl⟩

/-- Witness for claim C3 at a concrete raising request. -/
theorem C3_witness :
    sentMessages (ethos "alice" "k" (okWorld (Except.error "Connection refused"))).1 =
      [Message.text (exceptionText "Connection refused")] :=
  (C3_thm "alice" "k" "Connection refused"
    (okWorld (Except.error "Connection refused")) rfl rfl rfl).1

/-- Claim C4: on a 200 response whose JSON object body lacks a score key, the
handler sends exactly one message, the success embed, whose single score field
renders the sentinel N/A, and the invocation completes. -/
theorem C4_thm (s key : String) (w : World) (resp : HttpResponse)
    (data : List (String × JsonValue))
    (hd : w.deferRaises = none) (ha : w.api = Except.ok resp)
    (hst : resp.status_code = 200) (hb : resp.body = Except.ok (JsonValue.obj data))
    (hnone : data.lookup "score" = none) (hs : w.sendSuccessRaises = none) :
    sentMessages (ethos s key w).1 = [Message.embed (successEmbed (pyLstripAt s) data)] ∧
    (successEmbed (pyLstripAt s) data).fields = [⟨"Ethos Score", "N/A"⟩] ∧
    (ethos s key w).2 = Outcome.completed := by
  rcases w with ⟨api, dr, ss, se, sx⟩
  rcases resp with ⟨st, body⟩
  dsimp at hd ha hst hb hs
  subst hd ha hst hb hs
  refine ⟨rfl, ?_, rfl⟩
  simp [successEmbed, pyDictGet, hnone, pyStr]

/-- Witness for claim C4: handle bob with empty 200 body renders N/A. -/
theorem C4_witness :
    sentMessages (ethos "bob" "k"
        (okWorld (Except.ok ⟨200, Except.ok (JsonValue.obj [])⟩))).1 =
      [Message.embed (successEmbed (pyLstripAt "bob") [])] ∧
    (successEmbed (pyLstripAt "bob") []).fields = [⟨"Ethos Score", "N/A"⟩] := by
  have h := C4_thm "bob" "k" (okWorld (Except.ok ⟨200, Except.ok (JsonValue.obj [])⟩))
    ⟨200, Except.ok (JsonValue.obj [])⟩ [] rfl rfl rfl rfl rfl rfl
  exact ⟨h.1, h.2.1⟩

/-- Claim C5: on any non-200 status, the handler sends exactly one message, a
plain text one naming the normalized handle and stating the lookup failed,
with no score field; the message is the same function of the handle alone, so
it is identical in form for every non-200 status (4xx or 5xx alike). -/
theorem C5_thm (s key : String) (w : World) (resp : HttpResponse)
    (hd : w.deferRaises = none) (ha : w.api = Except.ok resp)
    (hst : resp.status_code ≠ 200) (hs : w.sendErrorRaises = none) :
    sentMessages (ethos s key w).1 = [Message.text (lookupErrorText (pyLstripAt s))] ∧
    (ethos s key w).2 = Outcome.completed := by
  rcases w with ⟨api, dr, ss, se, sx⟩
  rcases resp with ⟨st, body⟩
  dsimp at hd ha hst hs
  subst hd ha hs
  constructor <;> simp [ethos, tryBody, hst, sentMessages]

/-- Witness for claim C5: handle carol with a 404 status. -/
theorem C5_witness :
    sentMessages (ethos "carol" "k"
        (okWorld (Except.ok ⟨404, Except.ok (JsonValue.obj [])⟩))).1 =
      [Message.text (lookupErrorText (pyLstripAt "carol"))] :=
  (C5_thm "carol" "k" (okWorld (Except.ok ⟨404, Except.ok (JsonValue.obj [])⟩))
    ⟨404, Except.ok (JsonValue.obj [])⟩ rfl rfl (by decide) rfl).1

/-- Claim C6: on a 200 response with body score 87 for handle alice, the
handler sends exactly one message, a success embed titled with the normalized
handle, exactly one field labeled Ethos Score with value 87, and the fixed
blue accent colour. -/
theorem C6_thm (key : String) (w : World)
    (hd : w.deferRaises = none)
    (ha : w.api = Except.ok ⟨200, Except.ok (JsonValue.obj [("score", JsonValue.num 87)])⟩)
    (hs : w.sendSuccessRaises = none) :
    sentMessages (ethos "alice" key w).1 =
      [Message.embed
        { title := "Ethos Profile for @alice"
          color := colorBlue
          fields := [⟨"Ethos Score", "87"⟩] }] ∧
    (ethos "alice" key w).2 = Outcome.completed := by
  rcases w with ⟨api, dr, ss, se, sx⟩
  dsimp at hd ha hs
  subst hd ha hs
  exact ⟨rfl, rfl⟩

/-- Witness for claim C6 in a well-behaved environment. -/
theorem C6_witness :
    sentMessages (ethos "alice" "k"
        (okWorld (Except.ok ⟨200, Except.ok (JsonValue.obj [("score", JsonValue.num 87)])⟩))).1 =
      [Message.embed
        { title := "Ethos Profile for @alice"
          color := colorBlue
          fields := [⟨"Ethos Score", "87"⟩] }] :=
  (C6_thm "k"
    (okWorld (Except.ok ⟨200, Except.ok (JsonValue.obj [("score", JsonValue.num 87)])⟩))
    rfl rfl rfl).1

/-- Claim C7: whenever the deferred acknowledgment succeeds, the trace starts
with the acknowledgment, immediately followed by the single HTTP GET templated
with the normalized handle and carrying the bearer credential; neither event
occurs anywhere later in the trace, so the acknowledgment is never issued
after the HTTP request begins. -/
theorem C7_thm (s key : String) (w : World) (hd : w.deferRaises = none) :
    ∃ tail, (ethos s key w).1 =
        Event.deferred :: Event.httpGet (profileUrl (pyLstripAt s)) (authHeader key) :: tail ∧
      Event.deferred ∉ tail ∧ ∀ u a, Event.httpGet u a ∉ tail := by
  rcases ethos_events s key w hd with h | ⟨e, h⟩ <;>
    rcases tryBody_events (pyLstripAt s) key w with ht | ⟨data, ht⟩ | ht <;>
      rw [ht] at h <;> (try simp only [List.cons_append, List.nil_append] at h) <;>
      exact ⟨_, h, by simp, by simp⟩

/-- Witness for claim C7 at a concrete invocation. -/
theorem C7_witness :
    ∃ tail, (ethos "alice" "k" (okWorld (Except.error "x"))).1 =
        Event.deferred ::
          Event.httpGet (profileUrl (pyLstripAt "alice")) (authHeader "k") :: tail ∧
      Event.deferred ∉ tail ∧ ∀ u a, Event.httpGet u a ∉ tail :=
  C7_thm "alice" "k" (okWorld (Except.error "x")) rfl

/-- Claim C8: the handler is a deterministic function of the handle, the
credential and the simulated behaviour; two invocations under the same
environment produce structurally identical outbound message lists. The source
module keeps no mutable state that the handler reads or writes, which is why
the embedding of an invocation is a pure function and the two runs coincide
definitionally. -/
theorem C8_thm (s key : String) (w : World) :
    (runTwice s key w).1 = (runTwice s key w).2 ∧
    (runTwice s key w).1 = sentMessages (ethos s key w).1 := ⟨rfl, rfl⟩

/-- Claim C9: in the 200 branch, a present score key is rendered with the
Python str conversion of its value, whatever it is; a null score therefore
renders None, and the N/A sentinel is the rendering of the absent case. -/
theorem C9_thm (handle : String) (data : List (String × JsonValue)) :
    (∀ v, data.lookup "score" = some v →
      (successEmbed handle data).fields = [⟨"Ethos Score", pyStr v⟩]) ∧
    (data.lookup "score" = some JsonValue.null →
      (successEmbed handle data).fields = [⟨"Ethos Score", "None"⟩]) ∧
    (data.lookup "score" = none →
      (successEmbed handle data).fields = [⟨"Ethos Score", "N/A"⟩]) := by
  refine ⟨?_, ?_, ?_⟩
  · intro v hv
    simp [successEmbed, pyDictGet, hv]
  · intro hv
    simp [successEmbed, pyDictGet, hv, pyStr, pyRepr]
  · intro hv
    simp [successEmbed, pyDictGet, hv, pyStr]

/-- Witness for claim C9: a present string score, a present null score and an
absent score at concrete bodies. -/
theorem C9_witness :
    (successEmbed "bob" [("score", JsonValue.str "87")]).fields =
      [⟨"Ethos Score", pyStr (JsonValue.str "87")⟩] ∧
    (successEmbed "bob" [("score", JsonValue.null)]).fields = [⟨"Ethos Score", "None"⟩] ∧
    (successEmbed "bob" []).fields = [⟨"Ethos Score", "N/A"⟩] := by
  refine ⟨(C9_thm "bob" [("score", JsonValue.str "87")]).1 (JsonValue.str "87") rfl,
          (C9_thm "bob" [("score", JsonValue.null)]).2.1 rfl,
          (C9_thm "bob" []).2.2 rfl⟩

/-- Claim C10: the lstrip normalization is idempotent and its output never
begins with an at-sign, because all leading at-sign characters are removed. -/
theorem C10_thm (s : String) :
    pyLstripAt (pyLstripAt s) = pyLstripAt s ∧ ¬ beginsWithAt (pyLstripAt s) :=
  ⟨congrArg String.mk (dropWhile_at_idem s.data), dropWhile_at_head_ne s.data⟩

/-- Witness for claim C8 at a concrete invocation. -/
theorem C8_witness :
    (runTwice "alice" "k" (okWorld (Except.error "x"))).1 =
      (runTwice "alice" "k" (okWorld (Except.error "x"))).2 :=
  (C8_thm "alice" "k" (okWorld (Except.error "x"))).1

/-- Witness for claim C10 at a concrete input. -/
theorem C10_witness :
    pyLstripAt (pyLstripAt "@@bob") = pyLstripAt "@@bob" ∧
    ¬ beginsWithAt (pyLstripAt "@@bob") :=
  C10_thm "@@bob"
